import Mathlib

/-!
Verification development for the vidhived-ai repository.

The frontend TypeScript under src/frontend (and the unnamed source parts)
is embedded shallowly: numbers that JavaScript holds as doubles are
modelled as rationals, optional fields as Option, and JavaScript falsiness
of a numeric field (undefined or 0) is made explicit at each use site.
The Flask backend of the repository (app.py, services.py) is not present
in the source tree; the definitions whose doc comment starts with
"Modelled from the spec:" reconstruct those missing operations faithfully
from the specification text and are clearly marked as such.
-/

namespace Vidhived

/-! ## Data model (src/frontend/lib/api.ts) -/

/-- Risk category of a clause: category field of Clause in api.ts. -/
inductive Category
  | Red
  | Yellow
  | Green
deriving DecidableEq, Repr

/-- Document status: status field of DocumentAnalysis in api.ts
(pending, processing, completed, failed). -/
inductive DocStatus
  | pending
  | processing
  | completed
  | failed
deriving DecidableEq, Repr

/-- A bounding box vertex, from the wire format vertices entries. -/
structure Vertex where
  x : ℚ
  y : ℚ
deriving DecidableEq, Repr

/-- bounding_box field of Clause in api.ts. -/
structure BoundingBox where
  vertices : List Vertex
deriving DecidableEq, Repr

/-- An extracted entity of a clause: entities entries in api.ts. -/
structure EntityItem where
  text : String
  kind : String
deriving DecidableEq, Repr

/-- A legal term with its plain-language meaning: legal_terms entries. -/
structure LegalTerm where
  term : String
  meaning : String
deriving DecidableEq, Repr

/-- The Clause wire record of api.ts.  bounding_box, ocr_page_width and
ocr_page_height are optional there; a present width or height of 0 is
falsy in JavaScript and each consumer checks that explicitly below. -/
structure Clause where
  id : String
  text : String
  page_number : Nat
  score : ℚ
  category : Category
  clauseKind : String
  explanation : String
  summary : String
  entities : List EntityItem
  legal_terms : List LegalTerm
  bounding_box : Option BoundingBox
  ocr_page_width : Option ℚ
  ocr_page_height : Option ℚ
deriving DecidableEq, Repr

/-- The DocumentAnalysis projection returned by GET /document/:id
(api.ts). -/
structure DocumentAnalysis where
  documentId : String
  status : DocStatus
  message : Option String
  filename : Option String
  fullText : Option String
  analysis : Option (List Clause)
  documentSummary : Option String
  fullAnalysis : Option String
deriving DecidableEq, Repr

/-! ## Upload validation (src/frontend/app/page.tsx, validateFile) -/

/-- MAX_FILE_SIZE in app/page.tsx: 20 * 1024 * 1024 bytes. -/
def MAX_FILE_SIZE : Nat := 20 * 1024 * 1024

/-- The parts of a browser File object read by validateFile: name,
browser-reported MIME type, and size in bytes.  The file content itself
is never inspected by the client. -/
structure UploadFile where
  name : String
  mime : String
  size : Nat
deriving DecidableEq, Repr

/-- The two rejection messages validateFile can produce.  The source
returns the literal strings "Please select a PDF file." and a size
message that interpolates the size in MB; the message text plays no role
in the claims, so the two outcomes are named constructors here. -/
inductive ValidationError
  | notPdf
  | tooLarge
deriving DecidableEq, Repr

/-- Case-insensitive test that a file name ends in ".pdf", modelling
name.toLowerCase().endsWith(".pdf") via the character list. -/
def lowerEndsWithPdf (name : String) : Bool :=
  List.isSuffixOf [ '.', 'p', 'd', 'f' ] (name.toList.map Char.toLower)

/-- validateFile from app/page.tsx lines 57-65: rejects when the MIME
type is not application/pdf AND the lowercased name does not end in
.pdf; otherwise rejects when size exceeds MAX_FILE_SIZE; otherwise
accepts (returns null in the source, none here). -/
def validateFile (f : UploadFile) : Option ValidationError :=
  if f.mime ≠ "application/pdf" ∧ ¬ lowerEndsWithPdf f.name then
    some ValidationError.notPdf
  else if f.size > MAX_FILE_SIZE then
    some ValidationError.tooLarge
  else
    none

/-- The part of the HomePage component state touched by file selection:
the selected file and the displayed error. -/
structure UploadPageState where
  selectedFile : Option UploadFile
  errorMsg : Option ValidationError
deriving DecidableEq, Repr

/-- handleFileSelect from app/page.tsx lines 67-75: a file failing
validation only sets the error and returns, so no file is selected and
no request is ever made for it; a valid file becomes the selection and
clears the error. -/
def handleFileSelect (s : UploadPageState) (f : UploadFile) : UploadPageState :=
  match validateFile f with
  | some e => { s with errorMsg := some e }
  | none => { selectedFile := some f, errorMsg := none }

/-! ## Overlay geometry
(src/frontend/components/PdfOverlay.tsx and the single-page PdfViewer
in src/unnamed/part_010) -/

/-- A rendered overlay rectangle in canvas pixels. -/
structure OverlayRect where
  left : ℚ
  top : ℚ
  width : ℚ
  height : ℚ
deriving DecidableEq, Repr

/-- Minimum of a list of rationals, as Math.min over a spread array;
the empty case (Infinity in JavaScript) is unreachable for the
four-vertex boxes of the wire format and defaults to 0. -/
def qMin : List ℚ → ℚ
  | [] => 0
  | x :: xs => xs.foldl min x

/-- Maximum of a list of rationals, as Math.max over a spread array. -/
def qMax : List ℚ → ℚ
  | [] => 0
  | x :: xs => xs.foldl max x

/-- The overlay rectangle computed by PdfOverlay.tsx lines 25-39 for one
clause.  The guard mirrors the falsy test on bounding_box,
ocr_page_width and ocr_page_height (missing or zero yields no overlay,
the component returns null).  Both axes are then multiplied by the
single zoom factor scale: the source sets scaleX and scaleY to
scale * 1 regardless of the OCR page dimensions, which are never read
beyond the guard. -/
def pdfOverlayRect (c : Clause) (scale : ℚ) : Option OverlayRect :=
  match c.bounding_box, c.ocr_page_width, c.ocr_page_height with
  | some bb, some ow, some oh =>
    if ow = 0 ∨ oh = 0 then none
    else
      let xs := bb.vertices.map fun v => v.x * scale
      let ys := bb.vertices.map fun v => v.y * scale
      let left := qMin xs
      let top := qMin ys
      some ⟨left, top, qMax xs - left, qMax ys - top⟩
  | _, _, _ => none

/-- The overlay rectangle computed by the single-page PdfViewer in
part_010 lines 417-432: sx = canvas.width / ocr_page_width and
sy = canvas.height / ocr_page_height, applied to vertices 0, 1 and 3.
The guard is the same falsy test as in PdfOverlay. -/
def clauseOverlayRect (c : Clause) (canvasW canvasH : ℚ) : Option OverlayRect :=
  match c.bounding_box, c.ocr_page_width, c.ocr_page_height with
  | some bb, some ow, some oh =>
    if ow = 0 ∨ oh = 0 then none
    else
      let sx := canvasW / ow
      let sy := canvasH / oh
      let v0 := bb.vertices.getD 0 ⟨0, 0⟩
      let v1 := bb.vertices.getD 1 ⟨0, 0⟩
      let v3 := bb.vertices.getD 3 ⟨0, 0⟩
      some ⟨v0.x * sx, v0.y * sy, (v1.x - v0.x) * sx, (v3.y - v0.y) * sy⟩
  | _, _, _ => none

/-- pageClauses from part_010 line 309: the clauses drawn on the current
page are exactly those whose page_number equals it and whose
bounding_box is present. -/
def pageClauses (clauses : List Clause) (currentPage : Nat) : List Clause :=
  clauses.filter fun c => c.page_number == currentPage && c.bounding_box.isSome

/-- The width of the canvas a page is rendered to: pdf.js
getViewport with a zoom scale returns a viewport whose width is the
base page width times the scale, and the canvas adopts that width
(part_010 lines 59-67). -/
def viewportWidth (baseW scale : ℚ) : ℚ := baseW * scale

/-- The rescaling formula stated by the spec for overlay consumers,
written from the words of the spec for comparison with the code:
screenCoord = sourceCoord * (renderDimension / ocrDimension). -/
def specScreenCoord (sourceCoord renderDim ocrDim : ℚ) : ℚ :=
  sourceCoord * (renderDim / ocrDim)

/-! ## getPDFUrl (src/frontend/lib/api.ts, first version, lines 153-192) -/

/-- A JSON value, for the body a 2xx response may parse to. -/
inductive Json
  | null
  | bool (b : Bool)
  | num (q : ℚ)
  | str (s : String)
  | arr (xs : List Json)
  | obj (fields : List (String × Json))

/-- Substring membership on character lists, modelling the
String.prototype.includes test used on the content type. -/
def charsContain : List Char → List Char → Bool
  | [], pat => pat.isEmpty
  | s :: rest, pat => List.isPrefixOf pat (s :: rest) || charsContain rest pat

/-- s.includes(pat) from JavaScript. -/
def strIncludes (s pat : String) : Bool :=
  charsContain s.toList pat.toList

/-- The parts of a fetch Response that getPDFUrl reads: ok,
the content-type header (the empty string when absent, as in the
source), the body text, and the outcome the host JSON.parse gives on
that text.  A full JSON grammar is outside this embedding, so the parse
outcome travels with the response; none models a parse exception. -/
structure FetchResponse where
  ok : Bool
  contentType : String
  bodyText : String
  bodyJson : Option Json

/-- getPDFUrl from api.ts lines 153-192.  blobUrl stands for the string
URL.createObjectURL returns for the body.  Throwing is the error case;
every other path returns the JavaScript value the source returns: a
fresh object with a pdfUrl field on the blob paths, and the parsed JSON
itself, unchecked, when the body parses. -/
def getPDFUrl (r : FetchResponse) (blobUrl : String) : Except String Json :=
  if ¬ r.ok then
    Except.error "Failed to get PDF URL"
  else if strIncludes r.contentType "application/pdf"
      || strIncludes r.contentType "application/octet-stream" then
    Except.ok (Json.obj [("pdfUrl", Json.str blobUrl)])
  else if r.bodyText.startsWith "%PDF-" then
    Except.ok (Json.obj [("pdfUrl", Json.str blobUrl)])
  else
    match r.bodyJson with
    | some j => Except.ok j
    | none => Except.ok (Json.obj [("pdfUrl", Json.str blobUrl)])

/-- Whether a JSON value is an object carrying a string pdfUrl field,
the shape the declared return type of getPDFUrl promises. -/
def jsonHasPdfUrlString : Json → Bool
  | Json.obj fields =>
    fields.any fun f =>
      f.1 == "pdfUrl" && (match f.2 with | Json.str _ => true | _ => false)
  | _ => false

/-! ## Document page polling (src/frontend/app/document/[id]/page.tsx) -/

/-- The polling period passed to setInterval in the document page
effect: 3000 milliseconds. -/
def POLL_INTERVAL_MS : Nat := 3000

/-- The part of the DocumentPage component state the status poll
touches: whether the interval from the mount effect is still installed,
the latest analysis snapshot, and the displayed error. -/
structure DocPageState where
  intervalActive : Bool
  analysis : Option DocumentAnalysis
  errorMsg : String
deriving DecidableEq, Repr

/-- Events of the document page: a poll tick whose fetch resolved to a
snapshot, and unmount, whose cleanup clears the interval.  No other
event clears the interval: checkStatus itself never cancels it. -/
inductive DocPageEvent
  | tick (result : DocumentAnalysis)
  | unmount
deriving DecidableEq, Repr

/-- JavaScript m || d on an optional string: the default replaces both
a missing and an empty (falsy) message. -/
def jsOrDefault (m : Option String) (d : String) : String :=
  match m with
  | some s => if s = "" then d else s
  | none => d

/-- checkStatus from document/[id]/page.tsx lines 45-55: every tick
overwrites the analysis with the fetched snapshot, and a failed status
sets the error to the message, or to a fixed fallback text when the
message is absent or empty. -/
def checkStatusUpdate (s : DocPageState) (result : DocumentAnalysis) : DocPageState :=
  { s with
    analysis := some result
    errorMsg :=
      if result.status = DocStatus.failed then
        jsOrDefault result.message "Document processing failed"
      else s.errorMsg }

/-- One step of the document page: a tick runs checkStatus while the
interval is installed and leaves it installed whatever the status; only
unmount clears it (page.tsx lines 24-29). -/
def docPageStep (s : DocPageState) : DocPageEvent → DocPageState
  | DocPageEvent.tick r => if s.intervalActive then checkStatusUpdate s r else s
  | DocPageEvent.unmount => { s with intervalActive := false }

/-! ## Backend operations, modelled from the spec

The Flask backend (app.py, services.py) of this repository is not under
src/: only its HTTP contract (README), the frontend client and the spec
describe it.  The definitions below reconstruct the missing operations
from the specification text. -/

/-- Modelled from the spec: the backend Document record of the data
model section; the backend persistence code is not under src/. -/
structure Document where
  id : String
  filename : String
  pageCount : Nat
  fileSizeBytes : Nat
  status : DocStatus
  statusMessage : Option String
  fullText : Option String
  documentSummary : Option String
deriving DecidableEq, Repr

/-- Modelled from the spec: the Document Orchestrator status state
machine (spec 4.5); the backend orchestrator is not under src/.
The only transitions are pending to processing (the claim), processing
to completed, and processing to failed; completed and failed have no
outgoing transition. -/
inductive statusStep : DocStatus → DocStatus → Prop
  | claim : statusStep DocStatus.pending DocStatus.processing
  | complete : statusStep DocStatus.processing DocStatus.completed
  | fail : statusStep DocStatus.processing DocStatus.failed

/-- Position of a status along the pipeline: both terminal statuses sit
strictly downstream of processing, which sits strictly downstream of
pending. -/
def statusRank : DocStatus → Nat
  | DocStatus.pending => 0
  | DocStatus.processing => 1
  | DocStatus.completed => 2
  | DocStatus.failed => 2

/-- Modelled from the spec: the atomic pending-to-processing claim as a
conditional update keyed on the current status (spec 4.5 and 5, a
compare-and-set on the datastore); the backend datastore code is not
under src/.  Returns the updated store and whether this claim won. -/
def claimDocument (store : String → Option DocStatus) (docId : String) :
    (String → Option DocStatus) × Bool :=
  match store docId with
  | some DocStatus.pending =>
    (fun j => if j = docId then some DocStatus.processing else store j, true)
  | _ => (store, false)

/-- Modelled from the spec: the fixed category-from-score thresholds of
the Risk Scorer (spec data model and README risk categorization: Red at
0.7 and above, Yellow from 0.4 below 0.7, Green below 0.4); the backend
scorer is not under src/. -/
def categoryOfScore (score : ℚ) : Category :=
  if score ≥ 7 / 10 then Category.Red
  else if score ≥ 4 / 10 then Category.Yellow
  else Category.Green

/-- Modelled from the spec: the Risk Scorer writes a clause score
together with the category derived from it by categoryOfScore, so every
clause a completed document carries was produced this way. -/
def scoreClause (c : Clause) (score : ℚ) : Clause :=
  { c with score := score, category := categoryOfScore score }

/-- The classification record a provider returns (spec 4.3). -/
structure ClassifyResult where
  category : Category
  score : ℚ
  explanation : String
  summary : String
  entities : List EntityItem
  legal_terms : List LegalTerm
deriving DecidableEq, Repr

/-- Modelled from the spec: one configured provider of the Provider
Gateway, described by the outcome of one call to it.  none covers every
failure mode the spec lists for an attempt: timeout after the
per-attempt budget, rate limit, malformed response. -/
structure Provider where
  classifyOutcome : Option ClassifyResult
  answerOutcome : Option String
deriving DecidableEq, Repr

/-- Modelled from the spec: try the configured providers strictly in
priority order, advancing past any failing provider, and return the
first success; none only when every provider failed. -/
def tryProviders {α : Type} (get : Provider → Option α) : List Provider → Option α
  | [] => none
  | p :: rest =>
    match get p with
    | some r => some r
    | none => tryProviders get rest

/-- The failure the Provider Gateway surfaces when every provider in
the list failed. -/
inductive GatewayError
  | providerUnavailable
deriving DecidableEq, Repr

/-- Modelled from the spec: the Gateway classify call, surfacing
ProviderUnavailable exactly when every provider failed. -/
def gatewayClassify (ps : List Provider) : Except GatewayError ClassifyResult :=
  match tryProviders Provider.classifyOutcome ps with
  | some r => Except.ok r
  | none => Except.error GatewayError.providerUnavailable

/-- Modelled from the spec: the Gateway answer call. -/
def gatewayAnswer (ps : List Provider) : Except GatewayError String :=
  match tryProviders Provider.answerOutcome ps with
  | some a => Except.ok a
  | none => Except.error GatewayError.providerUnavailable

/-- Modelled from the spec: classification with the heuristic default:
the local heuristic result stands when every remote provider fails. -/
def classifyWithFallback (ps : List Provider) (heuristic : ClassifyResult) :
    ClassifyResult :=
  match gatewayClassify ps with
  | Except.ok r => r
  | Except.error _ => heuristic

/-- The answer payload of POST /ask: answer text and the hasAI flag
signalling whether a provider or the degraded path produced it. -/
structure AnswerResult where
  answer : String
  hasAI : Bool
deriving DecidableEq, Repr

/-- Modelled from the spec: the Q&A path returns the first provider
answer with hasAI true, or the degraded answer with hasAI false when
every provider failed. -/
def answerWithFallback (ps : List Provider) (degraded : String) : AnswerResult :=
  match gatewayAnswer ps with
  | Except.ok a => ⟨a, true⟩
  | Except.error _ => ⟨degraded, false⟩

/-- The client-facing failures of the ask operation (spec 4.6). -/
inductive AskError
  | documentNotFound
  | documentNotReady
deriving DecidableEq, Repr

/-- Modelled from the spec: both ask failures are client errors in the
4xx range (the spec fixes the class, not the exact codes). -/
def askHttpStatus : AskError → Nat
  | AskError.documentNotFound => 404
  | AskError.documentNotReady => 400

/-- The success payload of POST /ask. -/
structure AskOk where
  answer : String
  documentId : String
  hasAI : Bool
deriving DecidableEq, Repr

/-- Modelled from the spec: the Query Service ask operation (spec 4.6);
the backend query service is not under src/.  Unknown id yields
DocumentNotFound; a document whose status is not completed yields
DocumentNotReady; only a completed document reaches the Provider
Gateway answer path. -/
def ask (store : String → Option Document) (ps : List Provider)
    (degraded : String) (docId _question : String) : Except AskError AskOk :=
  match store docId with
  | none => Except.error AskError.documentNotFound
  | some d =>
    if d.status = DocStatus.completed then
      let res := answerWithFallback ps degraded
      Except.ok ⟨res.answer, docId, res.hasAI⟩
    else
      Except.error AskError.documentNotReady

/-! ## Concrete sample data

Fixed inputs used by witnesses and counterexamples; the clause mirrors
the first fixture of frontend/__tests__/PdfViewer.test.tsx. -/

/-- The first sample clause of the PdfViewer test fixture. -/
def sampleClause : Clause :=
  { id := "c1"
    text := "Sample clause 1"
    page_number := 1
    score := 9 / 10
    category := Category.Red
    clauseKind := "Test"
    explanation := "Test explanation"
    summary := ""
    entities := []
    legal_terms := []
    bounding_box := some ⟨[⟨100, 100⟩, ⟨200, 100⟩, ⟨200, 150⟩, ⟨100, 150⟩]⟩
    ocr_page_width := some 612
    ocr_page_height := some 792 }

/-- A clause with no bounding box and no OCR page dimensions. -/
def noBoxClause : Clause :=
  { id := "c0"
    text := "No box"
    page_number := 2
    score := 1 / 10
    category := Category.Green
    clauseKind := "Test"
    explanation := ""
    summary := ""
    entities := []
    legal_terms := []
    bounding_box := none
    ocr_page_width := none
    ocr_page_height := none }

/-- An axis-aligned box with corners at 10 and 20 on both axes. -/
def scaleDemoBox : BoundingBox :=
  ⟨[⟨10, 10⟩, ⟨20, 10⟩, ⟨20, 20⟩, ⟨10, 20⟩]⟩

/-- A clause whose OCR page dimensions (100 by 50) differ from the base
page dimensions a PDF page renders at. -/
def scaleDemoClause : Clause :=
  { id := "cx"
    text := "t"
    page_number := 1
    score := 1 / 2
    category := Category.Yellow
    clauseKind := "k"
    explanation := "e"
    summary := "s"
    entities := []
    legal_terms := []
    bounding_box := some scaleDemoBox
    ocr_page_width := some 100
    ocr_page_height := some 50 }

/-- A concrete classification result, standing for the output of a
succeeding provider. -/
def sampleClassify : ClassifyResult :=
  ⟨Category.Red, 9 / 10, "penalty clause", "short summary", [], []⟩

/-- A concrete heuristic default, distinct from sampleClassify. -/
def heuristicDefault : ClassifyResult :=
  ⟨Category.Green, 1 / 10, "heuristic", "heuristic summary", [], []⟩

/-- A document still pending, for the ask witness. -/
def pendingDoc : Document :=
  ⟨"d1", "contract.pdf", 1, 100, DocStatus.pending, none, none, none⟩

/-- A failed status snapshot with the message boom. -/
def failedSnapshot : DocumentAnalysis :=
  ⟨"d1", DocStatus.failed, some "boom", none, none, none, none, none⟩

/-! ## Shared helper lemmas -/

/-- Ordered fallback fails exactly when every provider in the list
fails. -/
theorem tryProviders_eq_none_iff {α : Type} (get : Provider → Option α) :
    ∀ ps : List Provider, tryProviders get ps = none ↔ ∀ p ∈ ps, get p = none := by
  intro ps
  induction ps with
  | nil => simp [tryProviders]
  | cons p rest ih => cases hp : get p <;> simp [tryProviders, hp, ih]

/-- The Gateway classify call surfaces its failure exactly when the
ordered fallback found no succeeding provider. -/
theorem gatewayClassify_error_iff (ps : List Provider) :
    gatewayClassify ps = Except.error GatewayError.providerUnavailable ↔
      tryProviders Provider.classifyOutcome ps = none := by
  unfold gatewayClassify
  cases htp : tryProviders Provider.classifyOutcome ps <;> simp

/-! ## Claims -/

/-- C1: for every document the status only moves forward along
pending, processing, completed or failed: along any sequence of
orchestrator transitions the rank never decreases and strictly
increases over a nonempty sequence, a terminal status (completed or
failed) is never left, and no transition returns to pending. -/
theorem C1_status_transitions_monotonic :
    (∀ a b : DocStatus, Relation.ReflTransGen statusStep a b →
      statusRank a ≤ statusRank b ∧ (a ≠ b → statusRank a < statusRank b)) ∧
    (∀ a b : DocStatus, Relation.ReflTransGen statusStep a b →
      (a = DocStatus.completed ∨ a = DocStatus.failed) → b = a) ∧
    (∀ a : DocStatus, ¬ statusStep a DocStatus.pending) := by
  refine ⟨?_, ?_, ?_⟩
  · intro a b h
    induction h with
    | refl => exact ⟨le_refl _, fun hne => absurd rfl hne⟩
    | @tail m c _ hbc ih =>
      have hlt : statusRank m < statusRank c := by
        cases hbc <;> simp [statusRank]
      exact ⟨le_of_lt (lt_of_le_of_lt ih.1 hlt),
        fun _ => lt_of_le_of_lt ih.1 hlt⟩
  · intro a b h hterm
    induction h with
    | refl => rfl
    | tail _ hbc ih =>
      subst ih
      rcases hterm with h1 | h1 <;> subst h1 <;> cases hbc
  · intro a h
    cases h

/-- C1 witness: the concrete run pending, processing, completed
strictly increases the rank. -/
theorem C1_status_transitions_monotonic_witness :
    statusRank DocStatus.pending < statusRank DocStatus.completed := by
  have path : Relation.ReflTransGen statusStep DocStatus.pending DocStatus.completed :=
    Relation.ReflTransGen.tail
      (Relation.ReflTransGen.single statusStep.claim) statusStep.complete
  exact (C1_status_transitions_monotonic.1 _ _ path).2 (by decide)

/-- C2: when two processing triggers race on the same document id, the
claim being an atomic conditional update on the stored status means the
two claims serialize, and on a pending document the first succeeds, the
second fails, and the stored status is processing: exactly one claim
succeeds. -/
theorem C2_claim_at_most_once :
    ∀ (store : String → Option DocStatus) (docId : String),
      store docId = some DocStatus.pending →
      (claimDocument store docId).2 = true ∧
      (claimDocument (claimDocument store docId).1 docId).2 = false ∧
      (claimDocument store docId).1 docId = some DocStatus.processing := by
  intro store docId h
  simp [claimDocument, h]

/-- C2 witness: the two serialized claims on a concrete pending store. -/
theorem C2_claim_at_most_once_witness :
    (claimDocument (fun _ => some DocStatus.pending) "doc-1").2 = true ∧
    (claimDocument
      (claimDocument (fun _ => some DocStatus.pending) "doc-1").1 "doc-1").2 = false := by
  have h := C2_claim_at_most_once (fun _ => some DocStatus.pending) "doc-1" rfl
  exact ⟨h.1, h.2.1⟩

/-- C3: every clause the Risk Scorer emits carries the category
determined from its score by the fixed thresholds: at least 0.7 gives
Red, at least 0.4 but below 0.7 gives Yellow, below 0.4 gives Green. -/
theorem C3_category_thresholds :
    ∀ (c : Clause) (s : ℚ),
      ((scoreClause c s).score ≥ 7 / 10 →
        (scoreClause c s).category = Category.Red) ∧
      (4 / 10 ≤ (scoreClause c s).score ∧ (scoreClause c s).score < 7 / 10 →
        (scoreClause c s).category = Category.Yellow) ∧
      ((scoreClause c s).score < 4 / 10 →
        (scoreClause c s).category = Category.Green) := by
  intro c s
  simp only [scoreClause, categoryOfScore]
  refine ⟨fun h => ?_, fun h => ?_, fun h => ?_⟩
  · rw [if_pos h]
  · rw [if_neg (by linarith [h.2]), if_pos h.1]
  · rw [if_neg (by linarith), if_neg (by linarith)]

/-- C3 witness: a score of 0.85 yields Red on the sample clause. -/
theorem C3_category_thresholds_witness :
    (scoreClause sampleClause (85 / 100)).category = Category.Red :=
  (C3_category_thresholds sampleClause (85 / 100)).1 (by norm_num [scoreClause])

/-- C4: the Provider Gateway tries the configured providers strictly in
priority order, advancing past any failing provider: with providers A
and B where A always fails and B always succeeds, classify and answer
return the result of B; ProviderUnavailable is surfaced exactly when
every provider fails, in which case classify yields the heuristic
default and answer yields the degraded answer with hasAI false. -/
theorem C4_provider_fallback :
    ∀ (A B : Provider) (r : ClassifyResult) (a : String)
      (heuristic : ClassifyResult) (degraded : String),
      A.classifyOutcome = none → A.answerOutcome = none →
      B.classifyOutcome = some r → B.answerOutcome = some a →
      (classifyWithFallback [A, B] heuristic = r ∧
        answerWithFallback [A, B] degraded = ⟨a, true⟩) ∧
      (∀ ps : List Provider,
        gatewayClassify ps = Except.error GatewayError.providerUnavailable ↔
          ∀ p ∈ ps, p.classifyOutcome = none) ∧
      (∀ (ps : List Provider) (h : ClassifyResult),
        (∀ p ∈ ps, p.classifyOutcome = none) → classifyWithFallback ps h = h) ∧
      (∀ (ps : List Provider) (d : String),
        (∀ p ∈ ps, p.answerOutcome = none) →
          answerWithFallback ps d = ⟨d, false⟩) := by
  intro A B r a heuristic degraded hAc hAa hBc hBa
  refine ⟨⟨?_, ?_⟩, ?_, ?_, ?_⟩
  · simp [classifyWithFallback, gatewayClassify, tryProviders, hAc, hBc]
  · simp [answerWithFallback, gatewayAnswer, tryProviders, hAa, hBa]
  · intro ps
    rw [gatewayClassify_error_iff, tryProviders_eq_none_iff]
  · intro ps h hall
    simp [classifyWithFallback, gatewayClassify,
      (tryProviders_eq_none_iff Provider.classifyOutcome ps).mpr hall]
  · intro ps d hall
    simp [answerWithFallback, gatewayAnswer,
      (tryProviders_eq_none_iff Provider.answerOutcome ps).mpr hall]

/-- C4 witness: with a failing first provider and a succeeding second
one, classify returns the second result and answer carries hasAI true;
with both failing, the heuristic default and the degraded answer with
hasAI false come back. -/
theorem C4_provider_fallback_witness :
    classifyWithFallback [⟨none, none⟩, ⟨some sampleClassify, some "from-B"⟩]
      heuristicDefault = sampleClassify ∧
    answerWithFallback [⟨none, none⟩, ⟨some sampleClassify, some "from-B"⟩]
      "degraded" = ⟨"from-B", true⟩ ∧
    classifyWithFallback [⟨none, none⟩, ⟨none, none⟩] heuristicDefault =
      heuristicDefault ∧
    answerWithFallback [⟨none, none⟩, ⟨none, none⟩] "degraded" =
      ⟨"degraded", false⟩ := by
  have h := C4_provider_fallback ⟨none, none⟩ ⟨some sampleClassify, some "from-B"⟩
    sampleClassify "from-B" heuristicDefault "degraded" rfl rfl rfl rfl
  refine ⟨h.1.1, h.1.2, ?_, ?_⟩
  · exact h.2.2.1 [⟨none, none⟩, ⟨none, none⟩] heuristicDefault (by simp)
  · exact h.2.2.2 [⟨none, none⟩, ⟨none, none⟩] "degraded" (by simp)

/-- C5: ask succeeds only on a completed document: an unknown id fails
with DocumentNotFound, a document whose status is not completed (in
particular pending) fails with DocumentNotReady and never yields a
success payload, and both failures are 4xx client errors. -/
theorem C5_ask_requires_completed :
    ∀ (store : String → Option Document) (ps : List Provider)
      (degraded docId q : String),
      (store docId = none →
        ask store ps degraded docId q = Except.error AskError.documentNotFound) ∧
      (∀ d : Document, store docId = some d → d.status ≠ DocStatus.completed →
        ask store ps degraded docId q = Except.error AskError.documentNotReady ∧
        ∀ payload : AskOk,
          ask store ps degraded docId q ≠ Except.ok payload) ∧
      (∀ e : AskError, 400 ≤ askHttpStatus e ∧ askHttpStatus e < 500) := by
  intro store ps degraded docId q
  refine ⟨?_, ?_, ?_⟩
  · intro h
    simp [ask, h]
  · intro d hd hne
    have hrun : ask store ps degraded docId q =
        Except.error AskError.documentNotReady := by
      simp [ask, hd, hne]
    exact ⟨hrun, fun payload hp => by simp [hrun] at hp⟩
  · intro e
    cases e <;> simp [askHttpStatus]

/-- C5 witness: asking about the concrete pending document yields
DocumentNotReady, a 4xx. -/
theorem C5_ask_requires_completed_witness :
    ask (fun _ => some pendingDoc) [] "degraded" "d1" "What is the penalty" =
      Except.error AskError.documentNotReady ∧
    400 ≤ askHttpStatus AskError.documentNotReady := by
  have h := C5_ask_requires_completed (fun _ => some pendingDoc) [] "degraded"
    "d1" "What is the penalty"
  exact ⟨(h.2.1 pendingDoc rfl (by decide)).1,
    (h.2.2 AskError.documentNotReady).1⟩

/-- C6 counterexample: a 100-byte file named notes.pdf whose
browser-reported MIME type is text/plain is not PDF content, yet
validateFile accepts it, because the name check alone satisfies the
disjunctive guard; so not every non-PDF file is rejected. -/
theorem C6_upload_validation_counterexample :
    validateFile ⟨"notes.pdf", "text/plain", 100⟩ = none ∧
    ("text/plain" : String) ≠ "application/pdf" := by
  refine ⟨by decide, by decide⟩

/-- C6 amended: validateFile accepts a file exactly when its MIME type
is application/pdf or its lowercased name ends in .pdf, and its size is
at most 20 MB; in particular every PDF at or under the ceiling passes,
and a rejected file is refused synchronously, its selection never
happening, before any request or pipeline work. -/
theorem C6_upload_validation_amended :
    (∀ f : UploadFile,
      validateFile f = none ↔
        ((f.mime = "application/pdf" ∨ lowerEndsWithPdf f.name = true) ∧
          f.size ≤ MAX_FILE_SIZE)) ∧
    (∀ (s : UploadPageState) (f : UploadFile) (e : ValidationError),
      validateFile f = some e →
        (handleFileSelect s f).selectedFile = s.selectedFile) := by
  constructor
  · intro f
    unfold validateFile
    split_ifs with h1 h2
    · simp only [reduceCtorEq, false_iff]
      intro hc
      rcases hc.1 with hm | he
      · exact h1.1 hm
      · exact h1.2 he
    · simp only [reduceCtorEq, false_iff]
      intro hc
      exact absurd hc.2 (not_le.mpr h2)
    · simp only [true_iff]
      refine ⟨?_, not_lt.mp h2⟩
      by_cases hm : f.mime = "application/pdf"
      · exact Or.inl hm
      · rcases not_and.mp h1 hm with he
        exact Or.inr (by simpa using he)
  · intro s f e h
    simp [handleFileSelect, h]

/-- C6 amended witness: a text file named a.txt fails validation, and
its selection leaves the page state file untouched. -/
theorem C6_upload_validation_amended_witness :
    (handleFileSelect ⟨none, none⟩ ⟨"a.txt", "text/plain", 5⟩).selectedFile = none :=
  C6_upload_validation_amended.2 ⟨none, none⟩ ⟨"a.txt", "text/plain", 5⟩
    ValidationError.notPdf (by decide)

/-- C7 counterexample: PdfOverlay multiplies both coordinates by the
zoom factor alone.  For the concrete clause whose source x is 10 and
whose OCR page width is 100, drawn at zoom 1 over a page canvas 612
wide (612 is the base width of the repo test pages), the component
places the box at x = 10, while the claimed formula
sourceCoord * (renderDimension / ocrDimension) demands 61.2; so the
rendered overlay coordinate does not equal the claimed rescaling. -/
theorem C7_overlay_scaling_counterexample :
    pdfOverlayRect scaleDemoClause 1 = some ⟨10, 10, 10, 10⟩ ∧
    specScreenCoord 10 (viewportWidth 612 1) 100 ≠ 10 := by
  constructor
  · norm_num [pdfOverlayRect, scaleDemoClause, scaleDemoBox, qMin, qMax,
      min_def, max_def]
  · norm_num [specScreenCoord, viewportWidth]

/-- C7 amended: the claimed per-axis rescaling holds in the single-page
PdfViewer, whose overlay coordinates equal the source coordinates times
canvas dimension over OCR page dimension on each axis; the PdfOverlay
component instead multiplies both axes by the uniform zoom factor and
never reads the OCR page dimensions beyond their presence check, its
output being identical for any two nonzero OCR dimension pairs. -/
theorem C7_overlay_scaling_amended :
    (∀ (c : Clause) (canvasW canvasH : ℚ) (bb : BoundingBox) (ow oh : ℚ),
      c.bounding_box = some bb → c.ocr_page_width = some ow →
      c.ocr_page_height = some oh → ow ≠ 0 → oh ≠ 0 →
      clauseOverlayRect c canvasW canvasH =
        some ⟨specScreenCoord (bb.vertices.getD 0 ⟨0, 0⟩).x canvasW ow,
          specScreenCoord (bb.vertices.getD 0 ⟨0, 0⟩).y canvasH oh,
          specScreenCoord
            ((bb.vertices.getD 1 ⟨0, 0⟩).x - (bb.vertices.getD 0 ⟨0, 0⟩).x)
            canvasW ow,
          specScreenCoord
            ((bb.vertices.getD 3 ⟨0, 0⟩).y - (bb.vertices.getD 0 ⟨0, 0⟩).y)
            canvasH oh⟩) ∧
    (∀ (c : Clause) (scale : ℚ) (ow oh ow' oh' : ℚ),
      ow ≠ 0 → oh ≠ 0 → ow' ≠ 0 → oh' ≠ 0 →
      pdfOverlayRect
        { c with ocr_page_width := some ow, ocr_page_height := some oh }
        scale =
      pdfOverlayRect
        { c with ocr_page_width := some ow', ocr_page_height := some oh' }
        scale) := by
  constructor
  · intro c canvasW canvasH bb ow oh hbb how hoh hw hh
    simp [clauseOverlayRect, hbb, how, hoh, hw, hh, specScreenCoord]
  · intro c scale ow oh ow' oh' hw hh hw' hh'
    cases hbb : c.bounding_box <;>
      simp [pdfOverlayRect, hbb, hw, hh, hw', hh']

/-- C7 amended witness: the sample clause of the repo test fixture,
rendered on a 306 by 396 canvas (half the OCR page dimensions), gets
the box of its vertices halved by the single-page viewer. -/
theorem C7_overlay_scaling_amended_witness :
    clauseOverlayRect sampleClause 306 396 = some ⟨50, 50, 50, 25⟩ := by
  have h := C7_overlay_scaling_amended.1 sampleClause 306 396
    ⟨[⟨100, 100⟩, ⟨200, 100⟩, ⟨200, 150⟩, ⟨100, 150⟩]⟩ 612 792
    rfl rfl rfl (by norm_num) (by norm_num)
  rw [h]
  norm_num [specScreenCoord, List.getD_cons_zero, List.getD_cons_succ]

/-- C9: a clause lacking a bounding box, an OCR page width or an OCR
page height gets no overlay from PdfOverlay, and the single-page viewer
only ever draws a clause on the page whose number equals the clause
page_number. -/
theorem C9_overlay_guard_and_page_filter :
    (∀ (c : Clause) (scale : ℚ),
      (c.bounding_box = none ∨ c.ocr_page_width = none ∨
        c.ocr_page_height = none) →
      pdfOverlayRect c scale = none) ∧
    (∀ (clauses : List Clause) (p : Nat) (c : Clause),
      c ∈ pageClauses clauses p → c.page_number = p) := by
  constructor
  · intro c scale h
    cases hb : c.bounding_box <;> cases hw : c.ocr_page_width <;>
      cases hh : c.ocr_page_height <;> simp_all [pdfOverlayRect]
  · intro clauses p c hc
    simp only [pageClauses, List.mem_filter, Bool.and_eq_true,
      beq_iff_eq] at hc
    exact hc.2.1

/-- C9 witness: the clause with no box gets no overlay, and the sample
clause drawn on page 1 indeed carries page_number 1. -/
theorem C9_overlay_guard_and_page_filter_witness :
    pdfOverlayRect noBoxClause 1 = none ∧ sampleClause.page_number = 1 := by
  refine ⟨C9_overlay_guard_and_page_filter.1 noBoxClause 1 (Or.inl rfl), ?_⟩
  exact C9_overlay_guard_and_page_filter.2 [sampleClause] 1 sampleClause
    (by simp [pageClauses, sampleClause])

/-- C8 counterexample: a 2xx response whose content type is
application/json and whose body is the empty object parses as JSON, so
getPDFUrl returns that parsed object unchecked; the result carries no
pdfUrl string, refuting that every 2xx response yields one. -/
theorem C8_getPDFUrl_counterexample :
    getPDFUrl ⟨true, "application/json", "\x7b\x7d", some (Json.obj [])⟩
      "blob:doc" = Except.ok (Json.obj []) ∧
    jsonHasPdfUrlString (Json.obj []) = false := by
  exact ⟨rfl, rfl⟩

/-- C8 amended: getPDFUrl throws exactly when the response is not ok;
every 2xx response returns without raising, a body that is PDF typed,
PDF prefixed or unparseable as JSON being wrapped into an object with a
blob pdfUrl, while a body that parses as JSON and is not recognized as
PDF is returned as parsed, so a pdfUrl string comes back only when that
JSON carries one. -/
theorem C8_getPDFUrl_amended :
    (∀ (r : FetchResponse) (b : String),
      (∃ msg, getPDFUrl r b = Except.error msg) ↔ r.ok = false) ∧
    (∀ (r : FetchResponse) (b : String),
      r.ok = true → r.bodyJson = none →
      getPDFUrl r b = Except.ok (Json.obj [("pdfUrl", Json.str b)])) ∧
    (∀ (r : FetchResponse) (b : String) (j : Json),
      r.ok = true →
      strIncludes r.contentType "application/pdf" = false →
      strIncludes r.contentType "application/octet-stream" = false →
      r.bodyText.startsWith "%PDF-" = false →
      r.bodyJson = some j →
      getPDFUrl r b = Except.ok j) := by
  refine ⟨?_, ?_, ?_⟩
  · intro r b
    cases hok : r.ok
    · simp [getPDFUrl, hok]
    · simp only [getPDFUrl, hok, Bool.true_eq_false, iff_false, not_exists]
      intro msg
      rw [if_neg (by simp)]
      split_ifs
      · simp
      · simp
      · cases hj : r.bodyJson <;> simp
  · intro r b hok hj
    simp only [getPDFUrl, hok, hj]
    rw [if_neg (by simp)]
    split_ifs <;> rfl
  · intro r b j hok hct1 hct2 hpdf hj
    simp [getPDFUrl, hok, hct1, hct2, hpdf, hj]

/-- C8 amended witness: an ok response with an unparseable non-PDF body
is wrapped into a blob pdfUrl object, and an ok response never throws. -/
theorem C8_getPDFUrl_amended_witness :
    getPDFUrl ⟨true, "text/html", "oops", none⟩ "blob:doc" =
      Except.ok (Json.obj [("pdfUrl", Json.str "blob:doc")]) ∧
    ¬ ∃ msg, getPDFUrl ⟨true, "text/html", "oops", none⟩ "blob:doc" =
      Except.error msg := by
  constructor
  · exact C8_getPDFUrl_amended.2.1 ⟨true, "text/html", "oops", none⟩
      "blob:doc" rfl rfl
  · intro h
    have := (C8_getPDFUrl_amended.1 ⟨true, "text/html", "oops", none⟩
      "blob:doc").mp h
    simp at this

/-- C10: the document page polls the status endpoint every 3000
milliseconds from mount until unmount and never stops on its own: a
tick leaves the interval installed whatever status it observes,
terminal ones included, each tick overwrites the displayed analysis
with the fetched snapshot, a failed status with a nonempty message sets
the displayed error to that message, and only unmount clears the
interval. -/
theorem C10_polling_never_stops :
    POLL_INTERVAL_MS = 3000 ∧
    (∀ (s : DocPageState) (r : DocumentAnalysis),
      s.intervalActive = true →
      (docPageStep s (DocPageEvent.tick r)).intervalActive = true ∧
      (docPageStep s (DocPageEvent.tick r)).analysis = some r ∧
      (∀ m : String, r.status = DocStatus.failed → r.message = some m →
        m ≠ "" → (docPageStep s (DocPageEvent.tick r)).errorMsg = m)) ∧
    (∀ s : DocPageState,
      (docPageStep s DocPageEvent.unmount).intervalActive = false) := by
  refine ⟨rfl, ?_, ?_⟩
  · intro s r hs
    refine ⟨by simp [docPageStep, hs, checkStatusUpdate],
      by simp [docPageStep, hs, checkStatusUpdate], ?_⟩
    intro m hst hm hne
    simp [docPageStep, hs, checkStatusUpdate, hst, jsOrDefault, hm, hne]
  · intro s
    simp [docPageStep]

/-- C10 witness: a tick observing the concrete failed snapshot keeps
the interval installed, stores the snapshot, and displays its message. -/
theorem C10_polling_never_stops_witness :
    (docPageStep ⟨true, none, ""⟩
      (DocPageEvent.tick failedSnapshot)).intervalActive = true ∧
    (docPageStep ⟨true, none, ""⟩
      (DocPageEvent.tick failedSnapshot)).analysis = some failedSnapshot ∧
    (docPageStep ⟨true, none, ""⟩
      (DocPageEvent.tick failedSnapshot)).errorMsg = "boom" := by
  have h := C10_polling_never_stops.2.1 ⟨true, none, ""⟩ failedSnapshot rfl
  exact ⟨h.1, h.2.1, h.2.2 "boom" rfl rfl (by decide)⟩

end Vidhived
